import Mathlib

/-!
Verification of the lead-classification core of the LM_Automation repository.

Python strings are modelled as `List Char` (ASCII-exact; Unicode case folding
is modelled for ASCII letters, which is exact everywhere the source applies
`.lower()` after its own ASCII folding).  Python floats are modelled as exact
rationals.  The DNS lookup performed by
`DomainValidator.check_domain_accessibility` is modelled as an explicit
oracle parameter `acc : List Char -> Bool` giving, for each domain string,
whether the domain resolves.
-/

set_option maxRecDepth 100000

/-- `str s` is the character-list view of a string literal. -/
def str (s : String) : List Char := s.toList

/-- ASCII lowercase conversion (code points 65–90 shift by 32), identity on
all other characters.  Models Python `str.lower()` restricted to ASCII. -/
def lowerC (c : Char) : Char :=
  if 65 ≤ c.toNat ∧ c.toNat ≤ 90 then Char.ofNat (c.toNat + 32) else c

/-- Python `str.strip()` whitespace class. -/
def isSpaceB (c : Char) : Bool :=
  c = ' ' || c = '\t' || c = '\n' || c = '\r' || c = '\x0b' || c = '\x0c'

/-- Python `str.strip()`: drop leading and trailing whitespace. -/
def stripL (l : List Char) : List Char :=
  ((l.dropWhile isSpaceB).reverse.dropWhile isSpaceB).reverse

/-- Boolean list-prefix test. -/
def startB : List Char → List Char → Bool
  | [], _ => true
  | _ :: _, [] => false
  | a :: as, b :: bs => a = b && startB as bs

/-- Boolean contiguous-substring test (Python `s in t`). -/
def isSubB : List Char → List Char → Bool
  | s, [] => startB s []
  | s, c :: ts => startB s (c :: ts) || isSubB s ts

/-- Boolean suffix test (Python `t.endswith(s)`). -/
def endsB (s t : List Char) : Bool := startB s.reverse t.reverse

/-- Python `t.split(sep)` for a single-character separator
(always returns at least one, possibly empty, segment). -/
def splitOnC (sep : Char) : List Char → List (List Char)
  | [] => [[]]
  | c :: rest =>
    if c = sep then [] :: splitOnC sep rest
    else
      match splitOnC sep rest with
      | [] => [[c]]
      | w :: ws => (c :: w) :: ws

/-- Accumulator loop for `wordsBy`; `acc` is the current run, reversed. -/
def wordsByAux (p : Char → Bool) : List Char → List Char → List (List Char)
  | [], acc => if acc.isEmpty then [] else [acc.reverse]
  | c :: rest, acc =>
    if p c then wordsByAux p rest (c :: acc)
    else if acc.isEmpty then wordsByAux p rest []
    else acc.reverse :: wordsByAux p rest []

/-- Maximal runs of characters satisfying `p`, in order, separators dropped. -/
def wordsBy (p : Char → Bool) (l : List Char) : List (List Char) :=
  wordsByAux p l []

/-- Join words with single spaces (no leading/trailing space). -/
def joinWords : List (List Char) → List Char
  | [] => []
  | [w] => w
  | w :: ws => w ++ ' ' :: joinWords ws

/-- Python `s.split()` with no argument: split on whitespace runs. -/
def pySplit (l : List Char) : List (List Char) :=
  wordsBy (fun c => !(isSpaceB c)) l

/-- Count of positions below both lengths with equal characters. -/
def countMatches : List Char → List Char → Nat
  | a :: as, b :: bs => (if a = b then 1 else 0) + countMatches as bs
  | _, _ => 0

/-- Lowercase-ASCII alphanumeric test (`[a-z0-9]`, code points 97–122 and
48–57). -/
def isLowDig (c : Char) : Bool :=
  (97 ≤ c.toNat && c.toNat ≤ 122) || (48 ≤ c.toNat && c.toNat ≤ 57)

namespace DomainValidator

/-! Shallow embedding of `src/email_extractor/extractor/domain_validator.py`. -/

/-- The built-in `FREE_MAILERS` set of domain_validator.py. -/
def FREE_MAILERS : List (List Char) :=
  [str "gmail.com", str "yahoo.com", str "outlook.com", str "hotmail.com", str "live.com",
   str "aol.com", str "icloud.com", str "mail.com", str "proton.me", str "protonmail.com",
   str "gmx.com", str "gmx.de", str "web.de", str "yandex.com", str "zoho.com", str "qq.com",
   str "mail.ru", str "163.com", str "126.com", str "sina.com", str "sohu.com"]

/-- The character class `[A-Za-z0-9.-]` of the domain regex. -/
def domainChar (c : Char) : Bool :=
  ('A' ≤ c && c ≤ 'Z') || ('a' ≤ c && c ≤ 'z') || ('0' ≤ c && c ≤ '9') || c = '.' || c = '-'

/-- `DomainValidator.extract_domain`: searches the stripped address for
`@([A-Za-z0-9.-]+)$`, i.e. takes the segment after the last `@` provided it is
non-empty and made only of domain characters, lowercased; otherwise empty. -/
def extract_domain (email : List Char) : List Char :=
  if email.isEmpty then []
  else
    let t := stripL email
    if t.contains '@' then
      let suf := (t.reverse.takeWhile (fun c => !(c = '@'))).reverse
      if suf.isEmpty then []
      else if suf.all domainChar then suf.map lowerC else []
    else []

/-- The corporate-suffix vocabulary of `normalize_name`, in source order. -/
def suffixes : List (List Char) :=
  [str "gmbh", str "ag", str "se", str "ltd", str "limited", str "inc", str "corp",
   str "corporation", str "llc", str "plc", str "sa", str "srl", str "bv", str "nv",
   str "kg", str "ohg", str "gbr", str "co", str "company", str "group", str "holding",
   str "holdings", str "international"]

/-- Regex word character `\w` (ASCII model). -/
def wordCharB (c : Char) : Bool :=
  ('A' ≤ c && c ≤ 'Z') || ('a' ≤ c && c ≤ 'z') || ('0' ≤ c && c ≤ '9') || c = '_'

/-- Word boundary to the left of a match: start of string or non-word predecessor. -/
def boundaryL : Option Char → Bool
  | none => true
  | some p => !(wordCharB p)

/-- Word boundary to the right of a match: end of string or non-word successor. -/
def boundaryR : List Char → Bool
  | [] => true
  | c :: _ => !(wordCharB c)

/-- `re.sub(rf"\b{s}\b", "", text)` for an alphabetic word `s`: scan left to
right, removing each non-overlapping occurrence of `s` that sits between word
boundaries; `prev` is the character preceding the scan position in the
original text.  Recursion is on a fuel counter for kernel reducibility; each
step consumes at least one character, so fuel `t.length` (as supplied by
`rmWordAll`) never runs out and the fuel-exhausted fallback is unreachable. -/
def rmWordGo (s : List Char) : Nat → Option Char → List Char → List Char
  | 0, _, t => t
  | _ + 1, _, [] => []
  | fuel + 1, prev, c :: rest =>
    if ¬s.isEmpty ∧ boundaryL prev ∧ startB s (c :: rest) ∧
        boundaryR ((c :: rest).drop s.length) then
      rmWordGo s fuel (some (s.getLastD c)) ((c :: rest).drop s.length)
    else c :: rmWordGo s fuel (some c) rest

/-- One whole-word suffix removal pass, matching `re.sub` over the full text. -/
def rmWordAll (t : List Char) (s : List Char) : List Char := rmWordGo s t.length none t

/-- `DomainValidator.normalize_name`: lowercase, strip the corporate suffixes
as whole words (in list order), then keep only `[a-z0-9]` and strip. -/
def normalize_name (text : List Char) : List Char :=
  if text.isEmpty then []
  else
    let t := text.map lowerC
    let t := suffixes.foldl rmWordAll t
    stripL (t.filter isLowDig)

/-- The conventional subdomain tokens skipped by `extract_main_domain`. -/
def subdomainTokens : List (List Char) :=
  [str "mail", str "email", str "webmail", str "smtp", str "pop", str "imap", str "www"]

/-- `DomainValidator.extract_main_domain`: split on dots, drop one leading
conventional subdomain, then take the second-to-last label, or the
third-to-last when the second-to-last is at most 3 characters long. -/
def extract_main_domain (domain : List Char) : List Char :=
  if domain.isEmpty then []
  else
    let parts := splitOnC '.' domain
    let parts :=
      if parts.length ≥ 2 ∧ parts.headD [] ∈ subdomainTokens then parts.drop 1 else parts
    if parts.length ≥ 2 then
      if parts.length ≥ 3 ∧ (parts.getD (parts.length - 2) []).length ≤ 3 then
        parts.getD (parts.length - 3) []
      else parts.getD (parts.length - 2) []
    else if parts.isEmpty then [] else parts.headD []

/-- `DomainValidator.is_free_mailer`. -/
def is_free_mailer (domain : List Char) : Bool :=
  decide (domain.map lowerC ∈ FREE_MAILERS)

/-- `DomainValidator.calculate_similarity`, floats modelled as exact
rationals (`mkRat m n` is the rational `m / n`, chosen over `/` so that the
kernel can evaluate scores on concrete inputs). -/
def calculate_similarity (str1 str2 : List Char) : ℚ :=
  if str1.isEmpty || str2.isEmpty then 0
  else if str1 = str2 then 1
  else if isSubB str1 str2 || isSubB str2 str1 then mkRat 4 5
  else if 0 < max str1.length str2.length then
    mkRat (countMatches str1 str2) (max str1.length str2.length)
  else 0

/-- The status/details/confidence record returned by `validate_domain`. -/
structure DVResult where
  status : List Char
  details : List Char
  confidence : List Char
deriving DecidableEq

/-- `DomainValidator.validate_domain`.  `acc` is the DNS-resolution oracle
modelling `check_domain_accessibility` (the `socket.gethostbyname` call). -/
def validate_domain (acc : List Char → Bool) (company email : List Char) : DVResult :=
  let domain := extract_domain email
  if domain.isEmpty then
    ⟨str "No Email Domain", str "Email address is empty or invalid", str "high"⟩
  else if company.isEmpty then
    ⟨str "No Company Name", str "Company name is empty", str "high"⟩
  else if is_free_mailer domain then
    ⟨str "Free Mailer", str "Using free email provider: " ++ domain, str "high"⟩
  else
    let company_normalized := normalize_name company
    let domain_main := extract_main_domain domain
    let domain_normalized := normalize_name domain_main
    let similarity := calculate_similarity company_normalized domain_normalized
    if similarity ≥ mkRat 4 5 then
      if acc domain then
        ⟨str "Valid Company Domain",
         str "Domain matches company: " ++ company ++ str " → " ++ domain, str "high"⟩
      else
        ⟨str "Matching Domain - Not Accessible",
         str "Domain matches but not accessible: " ++ domain, str "medium"⟩
    else if similarity ≥ mkRat 1 2 then
      ⟨str "Possible Domain Match",
       str "Partial match: " ++ company ++ str " ≈ " ++ domain ++
         str " (accessibility: " ++ (if acc domain then str "yes" else str "no") ++ str ")",
       str "medium"⟩
    else
      ⟨str "Domain Mismatch",
       str "Company and domain do not match: " ++ company ++ str " ≠ " ++ domain ++
         str " (domain accessible: " ++ (if acc domain then str "yes" else str "no") ++ str ")",
       str "high"⟩

end DomainValidator

namespace UniversityDetector

/-! Shallow embedding of `src/email_extractor/extractor/university_detector.py`.
Python sets are modelled as lists; every use below is an existential or
membership test, for which order and duplication are irrelevant. -/

/-- The built-in `FREE_MAILERS` set of university_detector.py (16 entries;
note it is smaller than the domain_validator one). -/
def FREE_MAILERS : List (List Char) :=
  [str "gmail.com", str "yahoo.com", str "outlook.com", str "hotmail.com", str "live.com",
   str "aol.com", str "icloud.com", str "mail.com", str "proton.me", str "protonmail.com",
   str "gmx.com", str "gmx.de", str "web.de", str "yandex.com", str "zoho.com", str "qq.com"]

/-- `ACADEMIC_TLDS`. -/
def ACADEMIC_TLDS : List (List Char) :=
  [str ".edu", str ".ac.uk", str ".ac.at", str ".ac.be", str ".ac.il", str ".ac.jp",
   str ".edu.au", str ".edu.cn", str ".edu.sg", str ".edu.hk", str ".edu.tw"]

/-- `CORE_ACADEMIC_WORDS`. -/
def CORE_ACADEMIC_WORDS : List (List Char) :=
  [str "university", str "universitat", str "universitaet", str "universite",
   str "universita", str "universidad", str "universidade",
   str "hochschule", str "fachhochschule",
   str "college",
   str "polytechnic", str "polytechnique", str "politecnico"]

/-- `STRICT_ACADEMIC_DOMAIN_TOKENS`. -/
def STRICT_ACADEMIC_DOMAIN_TOKENS : List (List Char) :=
  [str "university", str "universitat", str "college", str "academic",
   str "scholar", str "campus", str "edu"]

/-- `COMMERCIAL_COMPANIES`. -/
def COMMERCIAL_COMPANIES : List (List Char) :=
  [str "airbus", str "bosch", str "siemens", str "bmw", str "mercedes", str "volkswagen",
   str "vw", str "audi",
   str "continental", str "zf", str "schaeffler", str "mahle", str "porsche", str "daimler",
   str "opel", str "ford",
   str "renault", str "peugeot", str "citroen", str "fiat", str "alfa romeo", str "ferrari",
   str "lamborghini",
   str "intel", str "google", str "amazon", str "microsoft", str "sap", str "oracle",
   str "ibm", str "apple",
   str "samsung", str "huawei", str "cisco", str "hp", str "dell", str "lenovo", str "asus",
   str "acer",
   str "infineon", str "nxp", str "stmicroelectronics", str "texas instruments",
   str "analog devices",
   str "qualcomm", str "nvidia", str "amd", str "arm", str "broadcom",
   str "abb", str "schneider", str "philips", str "basf", str "bayer", str "thyssenkrupp",
   str "linde",
   str "henkel", str "covestro", str "wacker", str "evonik", str "lanxess", str "merck",
   str "fresenius",
   str "kuka", str "trumpf", str "festo", str "sick", str "pepperl fuchs", str "balluff",
   str "turck",
   str "deutsche telekom", str "orange", str "vodafone", str "telefonica", str "bt",
   str "swisscom",
   str "proximus", str "kpn", str "telecom italia", str "telekom austria",
   str "siemens energy", str "vestas", str "eon", str "rwe", str "engie", str "edf",
   str "iberdrola",
   str "total", str "shell", str "bp", str "eni", str "equinor",
   str "airbus defence", str "thales", str "leonardo", str "safran", str "rolls royce",
   str "mtu",
   str "diehl", str "hensoldt", str "rheinmetall",
   str "accenture", str "deloitte", str "pwc", str "kpmg", str "ey", str "mckinsey",
   str "bcg", str "bain",
   str "capgemini", str "atos", str "sopra steria", str "gft", str "msg", str "adesso",
   str "robert bosch", str "continental automotive", str "valeo", str "hella", str "osram",
   str "ledvance",
   str "weidmuller", str "phoenix contact", str "wago", str "murrelektronik", str "harting",
   str "lapp",
   str "clariant", str "solvay", str "akzonobel", str "arkema", str "brenntag", str "altana",
   str "roche", str "novartis", str "sanofi", str "bayer healthcare", str "fresenius medical",
   str "siemens healthineers", str "philips healthcare",
   str "arrow", str "avnet", str "future electronics", str "rutronik", str "distrelec",
   str "farnell",
   str "mouser", str "digikey", str "rs components", str "wurth elektronik",
   str "nexus quantum", str "nexus", str "quantum engineering", str "engineering solutions",
   str "tech solutions", str "innovative engineering",
   str "training", str "consulting", str "gmbh", str "ag", str "se", str "ltd", str "limited",
   str "inc",
   str "corporation", str "corp", str "solutions", str "services", str "systems",
   str "technologies",
   str "tech", str "group", str "holding", str "partner", str "international", str "quantum"]

/-- `COMMERCIAL_INDICATORS`. -/
def COMMERCIAL_INDICATORS : List (List Char) :=
  [str "gmbh", str "ag", str "ltd", str "limited", str "inc", str "corp", str "corporation",
   str "llc",
   str "consulting", str "consultancy", str "solutions", str "services", str "systems",
   str "technologies", str "tech", str "group", str "holding", str "holdings", str "partner",
   str "partners", str "international", str "global", str "worldwide",
   str "quantum", str "nexus", str "innovative", str "advanced", str "smart", str "digital",
   str "engineering solutions", str "engineering services", str "technical services"]

/-- `KNOWN_UNIVERSITIES`: the country-keyed table of known institutions. -/
def KNOWN_UNIVERSITIES : List (List Char × List (List Char)) :=
  [(str "germany",
    [str "rwth aachen", str "rheinisch westfalische technische hochschule",
     str "technische universitat munchen", str "tum",
     str "technische universitat darmstadt", str "tu darmstadt",
     str "ludwig maximilians universitat", str "lmu munchen", str "lmu",
     str "freie universitat berlin", str "humboldt universitat",
     str "karlsruher institut fur technologie", str "kit",
     str "tu berlin", str "tu munchen", str "tu dresden", str "tu braunschweig",
     str "universitat heidelberg", str "universitat freiburg", str "universitat gottingen",
     str "hochschule munchen", str "hochschule darmstadt", str "fachhochschule"]),
   (str "de",
    [str "rwth aachen", str "rwth", str "tum", str "lmu", str "kit",
     str "tu berlin", str "tu munchen", str "tu dresden", str "tu darmstadt",
     str "hochschule munchen", str "hochschule darmstadt", str "fh aachen"]),
   (str "uk",
    [str "university of cambridge", str "cambridge university", str "university of oxford",
     str "oxford university",
     str "imperial college london", str "imperial college", str "university college london",
     str "ucl",
     str "kings college london", str "kcl",
     str "university of edinburgh", str "university of manchester",
     str "university of warwick",
     str "lse", str "london school of economics"]),
   (str "united kingdom",
    [str "cambridge", str "oxford", str "imperial", str "ucl", str "edinburgh",
     str "manchester", str "warwick"]),
   (str "france",
    [str "sorbonne", str "universite de la sorbonne",
     str "ecole polytechnique", str "ecole normale superieure",
     str "universite paris", str "universite de lyon", str "universite de toulouse"]),
   (str "italy",
    [str "sapienza", str "universita di roma la sapienza",
     str "politecnico di milano", str "politecnico di torino",
     str "universita di bologna", str "universita di padova", str "universita di roma"]),
   (str "spain",
    [str "universidad autonoma de madrid", str "universidad complutense",
     str "universitat de barcelona", str "universidad politecnica de madrid",
     str "universidad politecnica de valencia"]),
   (str "netherlands",
    [str "universiteit van amsterdam", str "vrije universiteit",
     str "vrije universiteit amsterdam",
     str "leiden university", str "universiteit leiden", str "utrecht university",
     str "universiteit utrecht",
     str "tu delft", str "technische universiteit delft"]),
   (str "switzerland",
    [str "eth zurich", str "eidgenossische technische hochschule",
     str "epfl", str "ecole polytechnique federale",
     str "universite de geneve", str "universitat zurich"]),
   (str "austria",
    [str "technische universitat wien", str "universitat wien", str "tu wien",
     str "tu graz"]),
   (str "turkey",
    [str "bursa technical university", str "bursa teknik universitesi",
     str "middle east technical university", str "metu", str "odtu",
     str "istanbul technical university", str "itu",
     str "bogazici university", str "bogazici universitesi",
     str "hacettepe university", str "ankara university",
     str "bilkent university", str "koc university"]),
   (str "tr",
    [str "bursa technical", str "bursa teknik",
     str "metu", str "odtu", str "itu", str "bogazici", str "hacettepe", str "bilkent",
     str "koc"])]

/-- The explicit German-umlaut replacements performed before ASCII folding. -/
def umlautExpand (c : Char) : List Char :=
  if c = 'ä' then ['a'] else if c = 'ö' then ['o'] else if c = 'ü' then ['u']
  else if c = 'Ä' then ['A'] else if c = 'Ö' then ['O'] else if c = 'Ü' then ['U']
  else if c = 'ß' then ['s', 's'] else [c]

/-- Models `unicodedata.normalize("NFKD", ...).encode("ascii", "ignore")`:
identity on ASCII code points, decomposition of common accented Latin
letters to their base letter, and every other non-ASCII code point dropped
(as `encode("ascii", "ignore")` does). -/
def nfkdAscii (c : Char) : List Char :=
  if c.toNat < 128 then [c]
  else if c ∈ str "àáâãå" then ['a'] else if c ∈ str "ÀÁÂÃÅ" then ['A']
  else if c ∈ str "èéêë" then ['e'] else if c ∈ str "ÈÉÊË" then ['E']
  else if c ∈ str "ìíîï" then ['i'] else if c ∈ str "ÌÍÎÏ" then ['I']
  else if c ∈ str "òóôõ" then ['o'] else if c ∈ str "ÒÓÔÕ" then ['O']
  else if c ∈ str "ùúû" then ['u'] else if c ∈ str "ÙÚÛ" then ['U']
  else if c = 'ñ' then ['n'] else if c = 'Ñ' then ['N']
  else if c = 'ç' then ['c'] else if c = 'Ç' then ['C']
  else if c ∈ str "ýÿ" then ['y'] else if c = 'Ý' then ['Y']
  else []

/-- `normalize_text`: umlaut folding, NFKD + ASCII re-encoding, lowercasing,
then `re.sub("[^a-z0-9]+", " ", .).strip()` followed by whitespace collapse —
i.e. the single-space join of the maximal `[a-z0-9]` runs. -/
def normalize_text (text : List Char) : List Char :=
  if text.isEmpty then []
  else
    let t := (text.flatMap umlautExpand).flatMap nfkdAscii
    let t := t.map lowerC
    joinWords (wordsBy isLowDig t)

/-- `university_detector.extract_domain` is character-for-character the same
function as `domain_validator.extract_domain`. -/
def extract_domain (email : List Char) : List Char :=
  DomainValidator.extract_domain email

/-- `university_detector.is_free_mailer` (against this module's smaller list). -/
def is_free_mailer (domain : List Char) : Bool :=
  decide (domain.map lowerC ∈ FREE_MAILERS)

/-- `has_commercial_indicators`: substring test of each indicator against the
normalized text. -/
def has_commercial_indicators (text : List Char) : Bool :=
  if text.isEmpty then false
  else
    let normalized := normalize_text text
    COMMERCIAL_INDICATORS.any (fun indicator => isSubB indicator normalized)

/-- `is_commercial_company`: substring test of each normalized known-company
name against the normalized text. -/
def is_commercial_company (text : List Char) : Bool :=
  if text.isEmpty then false
  else
    let normalized := normalize_text text
    COMMERCIAL_COMPANIES.any (fun company => isSubB (normalize_text company) normalized)

/-- `has_strict_academic_tld`: lowercased domain ends with one of the TLDs. -/
def has_strict_academic_tld (domain : List Char) : Bool :=
  if domain.isEmpty then false
  else
    let domain_lower := domain.map lowerC
    ACADEMIC_TLDS.any (fun tld => endsB tld domain_lower)

/-- `domain_contains_university_keyword`: substring test of each strict token
against the normalized domain. -/
def domain_contains_university_keyword (domain : List Char) : Bool :=
  if domain.isEmpty then false
  else
    let normalized := normalize_text domain
    STRICT_ACADEMIC_DOMAIN_TOKENS.any (fun token => isSubB token normalized)

/-- The country-key scan of `matches_known_university`: union of the value
sets of every key equal to, contained in, or containing the normalized
country. -/
def gather_universities (country_norm : List Char) : List (List Char) :=
  KNOWN_UNIVERSITIES.foldl
    (fun acc p =>
      if decide (p.1 = country_norm) || isSubB p.1 country_norm || isSubB country_norm p.1
      then acc ++ p.2 else acc)
    []

/-- `matches_known_university`: some gathered institution whose normalized
name equals the normalized company name, or is a contiguous substring of it
with every one of its words occurring among the company-name words. -/
def matches_known_university (company country : List Char) : Bool :=
  if company.isEmpty || country.isEmpty then false
  else
    let company_norm := normalize_text company
    let country_norm := normalize_text country
    let universities := gather_universities country_norm
    if universities.isEmpty then false
    else
      universities.any (fun uni =>
        let uni_norm := normalize_text uni
        decide (company_norm = uni_norm) ||
          (isSubB uni_norm company_norm &&
            (pySplit uni_norm).all (fun w => decide (w ∈ pySplit company_norm))))

/-- `contains_core_academic_word`: whole-word membership test. -/
def contains_core_academic_word (text : List Char) : Bool :=
  if text.isEmpty then false
  else (pySplit (normalize_text text)).any (fun w => decide (w ∈ CORE_ACADEMIC_WORDS))

/-- The result record of `UniversityDetector.is_university`. -/
structure UDResult where
  is_univ : Bool
  reason : List Char
  confidence : List Char
deriving DecidableEq

/-- `UniversityDetector.is_university`: the priority chain known-list →
commercial-list → (non-free-mailer) academic TLD → domain keyword →
company-name academic word (downgraded when commercial indicators are also
present) → default not-a-university. -/
def is_university (company country email : List Char) : UDResult :=
  let domain := extract_domain email
  if matches_known_university company country then
    ⟨true, str "Known university in " ++ country ++ str ": " ++ company, str "high"⟩
  else if is_commercial_company company then
    ⟨false, str "Known commercial company: " ++ company, str "high"⟩
  else if !(is_free_mailer domain) && has_strict_academic_tld domain then
    ⟨true, str "Academic domain TLD: " ++ domain, str "high"⟩
  else if !(is_free_mailer domain) && domain_contains_university_keyword domain then
    ⟨true, str "Domain contains university keyword: " ++ domain, str "high"⟩
  else if contains_core_academic_word company then
    if has_commercial_indicators company then
      ⟨false, str "Contains academic word but has commercial indicators: " ++ company,
       str "medium"⟩
    else
      ⟨true, str "Company name contains academic keyword: " ++ company, str "medium"⟩
  else
    ⟨false, str "No clear university indicators", str "high"⟩

end UniversityDetector

namespace ValidationData

/-! Shallow embedding of `src/email_extractor/extractor/validation_data.py`.
The loader state is the five reference sets after `load_all`; the file I/O
that fills them is external, so a `Loader` value is taken as given.  The
optional domain→institution-name side map is not consumed by any claim and
is omitted. -/

/-- The five reference sets of `ValidationDataLoader`. -/
structure Loader where
  academic_domains : List (List Char)
  excluded_domains : List (List Char)
  direct_accounts : List (List Char)
  blacklisted_countries : List (List Char)
  freemail_domains : List (List Char)

/-- `(x or "").strip().lower()`, the lookup normalization. -/
def slNorm (x : List Char) : List Char := (stripL x).map lowerC

/-- `ValidationDataLoader.is_academic_domain`: exact or dotted-suffix match. -/
def is_academic_domain (L : Loader) (domain : List Char) : Bool :=
  let d := slNorm domain
  if d.isEmpty then false
  else
    decide (d ∈ L.academic_domains) ||
      L.academic_domains.any (fun ad => decide (d = ad) || endsB ('.' :: ad) d)

/-- `ValidationDataLoader.is_excluded_domain`: exact or dotted-suffix match. -/
def is_excluded_domain (L : Loader) (domain : List Char) : Bool :=
  let d := slNorm domain
  decide (d ∈ L.excluded_domains) ||
    L.excluded_domains.any (fun ed => endsB ('.' :: ed) d)

/-- `ValidationDataLoader.is_direct_account`. -/
def is_direct_account (L : Loader) (company : List Char) : Bool :=
  decide (slNorm company ∈ L.direct_accounts)

/-- `ValidationDataLoader.is_blacklisted_country`. -/
def is_blacklisted_country (L : Loader) (country : List Char) : Bool :=
  decide (slNorm country ∈ L.blacklisted_countries)

/-- `ValidationDataLoader.is_freemail_domain`: exact or dotted-suffix match. -/
def is_freemail_domain (L : Loader) (domain : List Char) : Bool :=
  let d := slNorm domain
  decide (d ∈ L.freemail_domains) ||
    L.freemail_domains.any (fun fd => endsB ('.' :: fd) d)

/-- The result record of `validate_lead`. -/
structure VLResult where
  is_valid : Bool
  reason : List Char
  validation_type : List Char
deriving DecidableEq

/-- The domain extraction at the head of `validate_lead`:
`email.split("@")[-1].lower().strip()` when the email is non-empty and
contains `@`, else empty. -/
def lead_domain (email : List Char) : List Char :=
  if !email.isEmpty && email.contains '@' then
    stripL (((splitOnC '@' email).getLastD []).map lowerC)
  else []

/-- `ValidationDataLoader.validate_lead`: blacklisted country → direct
account → excluded domain → academic domain → freemail → valid. -/
def validate_lead (L : Loader) (company country email : List Char) : VLResult :=
  let domain := lead_domain email
  if is_blacklisted_country L country then
    ⟨false, str "Blacklisted country: " ++ country, str "Country"⟩
  else if is_direct_account L company then
    ⟨false, str "Direct account: " ++ company, str "Direct Account"⟩
  else if is_excluded_domain L domain then
    ⟨false, str "Excluded domain: " ++ domain, str "Excluded Domain"⟩
  else if is_academic_domain L domain then
    ⟨false, str "Academic domain: " ++ domain, str "Academic"⟩
  else if is_freemail_domain L domain then
    ⟨true, str "Freemail provider: " ++ domain, str "Freemail"⟩
  else ⟨true, [], str "Valid"⟩

end ValidationData

namespace EmailParser

/-! Shallow embedding of the row-building logic of
`src/email_extractor/extractor/parser.py` (`EmailParser.parse_email`).
The upstream mail item and the HTML/plain-text field scraping
(`_parse_html`/`_parse_text`) are I/O glue; their combined outcome is taken
as inputs: `subject`, `sender`, `received`, `allEmails` model the four header
entries computed first, and `data` models the merged label→value mapping the
two body scanners produced. -/

/-- The canonical field catalogue `FIELDS` of parser.py, in source order. -/
def FIELDS : List (List Char) :=
  [str "Subject", str "Sender", str "ReceivedTime", str "All Emails Found",
   str "First Name", str "Last Name", str "Email Address", str "Company",
   str "Pages Viewed",
   str "Submit Time", str "Form Name", str "URL Of Form", str "Salutation",
   str "Business Phone",
   str "Country", str "City", str "State/Province", str "Researched State or Province",
   str "Job Role", str "Industry", str "Lead Triggering Activities", str "Project yes/no",
   str "Start of Production", str "Project Volume", str "Project Timeframe",
   str "Rejection reason",
   str "Rejection reason free text", str "Lead Source - Most Recent",
   str "Lead Source - Original",
   str "Lead Source Name - Most Recent", str "Lead Source Name - Original",
   str "Lead Trigger",
   str "Lead Lifecycle Count", str "Account Type", str "Lead Lifecycle ID",
   str "Lead editor",
   str "Subject Line", str "Notification", str "PreMQL review/validation link",
   str "Company Matching Status",
   str "Potential Distribution Partner (matching in beta testing)", str "Digital activity",
   str "Eloqua Profiler", str "Initial Call Notes",
   str "Has Contact Sales Form",
   str "Status",
   str "Action Taken",
   str "Company Domain Validation",
   str "Validation Status",
   str "Validation Reason",
   str "Take Action",
   str "Valid Company → Reject Reason",
   str "Invalid Company Reason",
   str "Reject Reason",
   str "Additional Scoring Information",
   str "Send to",
   str "Move to Folder",
   str "Form Submission Status",
   str "Email Move Status"]

/-- A parsed row: the Python dict modelled as an association list where a
later assignment shadows an earlier binding of the same key. -/
abbrev Row := List (List Char × List Char)

/-- Dict lookup (`row.get(key)`). -/
def rget : Row → List Char → Option (List Char)
  | [], _ => none
  | (k, v) :: rest, key => if k = key then some v else rget rest key

/-- Dict assignment (`row[key] = value`). -/
def rset (r : Row) (k v : List Char) : Row := (k, v) :: r

/-- The contact-sales-form patterns of `_check_contact_sales_form`. -/
def CONTACT_PATTERNS : List (List Char) :=
  [str "contact_sales_forms", str "contact sales forms",
   str "contact_sales_form", str "contact sales form",
   str "contactsalesforms", str "contactsalesform"]

/-- `EmailParser._check_contact_sales_form`. -/
def check_contact_sales_form (activities : List Char) : List Char :=
  if activities.isEmpty then str "No"
  else if CONTACT_PATTERNS.any (fun p => isSubB p (activities.map lowerC)) then str "Yes"
  else str "No"

/-- The header entries built first by `parse_email`. -/
def header_row (subject sender received allEmails : List Char) : Row :=
  [(str "Subject", subject), (str "Sender", sender), (str "ReceivedTime", received),
   (str "All Emails Found", allEmails)]

/-- One step of the `for field in FIELDS` loop: set the field from the
scraped data (default empty) unless the row already has it. -/
def fillStep (data : List Char → Option (List Char)) (r : Row) (f : List Char) : Row :=
  if rget r f = none then rset r f ((data f).getD []) else r

/-- The `for field in FIELDS` loop of `parse_email`. -/
def fill_fields (data : List Char → Option (List Char)) (r : Row) : Row :=
  FIELDS.foldl (fillStep data) r

/-- The `Has Contact Sales Form` assignment of `parse_email`. -/
def with_contact_flag (r : Row) : Row :=
  rset r (str "Has Contact Sales Form")
    (check_contact_sales_form ((rget r (str "Lead Triggering Activities")).getD []))

/-- The validation block of `parse_email` (`if self.validation_loader:`). -/
def apply_validation (loader : Option ValidationData.Loader)
    (company country email : List Char) (r : Row) : Row :=
  match loader with
  | none => r
  | some L =>
    let vr := ValidationData.validate_lead L company country email
    if !vr.is_valid then
      rset (rset (rset (rset r (str "Status") vr.validation_type)
        (str "Action Taken") vr.reason) (str "Validation Status") (str "Invalid"))
        (str "Validation Reason") vr.reason
    else
      rset (rset r (str "Validation Status") (str "Valid"))
        (str "Validation Reason") vr.reason

/-- The university block of `parse_email` (runs only when no status is set
and a detector is attached). -/
def apply_university (hasDetector : Bool) (company country email : List Char)
    (r : Row) : Row :=
  if ((rget r (str "Status")).getD []).isEmpty && hasDetector then
    let ur := UniversityDetector.is_university company country email
    if ur.is_univ then
      rset (rset r (str "Status") (str "University Contact"))
        (str "Action Taken") (str "Identified as university - " ++ ur.reason)
    else r
  else r

/-- The final `Status` defaulting of `parse_email`. -/
def default_status (r : Row) : Row :=
  if ((rget r (str "Status")).getD []).isEmpty then
    rset r (str "Status") (str "Not Started")
  else r

/-- The final `Action Taken` defaulting of `parse_email`. -/
def default_action (r : Row) : Row :=
  if ((rget r (str "Action Taken")).getD []).isEmpty then
    rset r (str "Action Taken") []
  else r

/-- `EmailParser.parse_email` from the point the header row is built:
fill every catalogued field from the scraped data, compute the
contact-sales-form flag, run `validate_lead` when a loader is attached, run
the university detector when attached and no status is set, then default the
status and action.  `loader = none` / `hasDetector = false` model a parser
constructed without the corresponding collaborator. -/
def parse_email (subject sender received allEmails : List Char)
    (data : List Char → Option (List Char))
    (loader : Option ValidationData.Loader) (hasDetector : Bool) : Row :=
  let row := header_row subject sender received allEmails
  let row := fill_fields data row
  let row := with_contact_flag row
  let company := (rget row (str "Company")).getD []
  let country := (rget row (str "Country")).getD []
  let email := (rget row (str "Email Address")).getD []
  let row := apply_validation loader company country email row
  let row := apply_university hasDetector company country email row
  let row := default_status row
  default_action row

end EmailParser

namespace MainOrch

/-! Shallow embedding of the per-row status stages of
`src/email_extractor/main.py` that run after classification: the email-move
status update loop (lines 203–216) and the Mass Market relabel of the review
sheet (lines 246–253). -/

/-- The `protected_statuses` list of main.py. -/
def protected_statuses : List (List Char) :=
  [str "University Contact", str "Completed", str "Academic", str "Excluded Domain",
   str "Direct Account", str "Country", str "Freemail"]

/-- One iteration of the status-update loop: `entry` is `status_map[i]` when
the row index is present in the map (`none` models absence). -/
def update_row_status (entry : Option (List Char × List Char))
    (row : EmailParser.Row) : EmailParser.Row :=
  let current := (EmailParser.rget row (str "Status")).getD []
  if decide (current ∈ protected_statuses) then row
  else
    match entry with
    | some (st, act) =>
      EmailParser.rset (EmailParser.rset row (str "Status") st) (str "Action Taken") act
    | none =>
      if current.isEmpty then
        EmailParser.rset (EmailParser.rset row (str "Status") (str "Not Started"))
          (str "Action Taken") (str "No action taken")
      else row

/-- The Mass Market relabel applied to a review-sheet row: rows whose
`Account Type` contains "mass market" case-insensitively and whose status is
not protected are relabelled. -/
def mass_market_update (row : EmailParser.Row) : EmailParser.Row :=
  if isSubB (str "mass market") (((EmailParser.rget row (str "Account Type")).getD []).map lowerC)
  then
    let current := (EmailParser.rget row (str "Status")).getD []
    if decide (current ∈ protected_statuses) then row
    else
      EmailParser.rset (EmailParser.rset row (str "Status") (str "Mass Market"))
        (str "Action Taken") (str "Identified as Mass Market account")
  else row

end MainOrch

/-! ## Property vocabulary used by the claim statements -/

/-- Modelled from the spec's words for C4 only (refinement comparison): the
normalized domain contains one of university/college/academic/campus/edu as a
standalone whole word. -/
def domain_keyword_spec (domain : List Char) : Bool :=
  (pySplit (UniversityDetector.normalize_text domain)).any
    (fun w => decide (w ∈ [str "university", str "college", str "academic",
      str "campus", str "edu"]))

/-- Spacing discipline of the spec's normalizer output: no space at the start,
none after another space (the flag records whether a space may occur now). -/
def spacingOk : Bool → List Char → Bool
  | _, [] => true
  | allowSp, c :: rest =>
    if c = ' ' then allowSp && spacingOk false rest else spacingOk true rest

/-- The spec's output shape for the normalizer: only lowercase ASCII
alphanumerics and spaces, single spaces only, no leading or trailing space. -/
def canonForm (l : List Char) : Bool :=
  l.all (fun c => isLowDig c || decide (c = ' ')) && spacingOk false l &&
    decide (l.getLast? ≠ some ' ')

/-! ## Helper lemmas shared by several claims -/

theorem startB_refl (l : List Char) : startB l l = true := by
  induction l with
  | nil => rfl
  | cons c cs ih => simp [startB, ih]

theorem isSubB_refl (l : List Char) : isSubB l l = true := by
  cases l with
  | nil => rfl
  | cons c cs => simp [isSubB, startB_refl]

theorem ne_nil_append (a b : List Char) (h : a ≠ []) : a ++ b ≠ [] := by
  cases a <;> simp_all

theorem countMatches_le_min (a b : List Char) :
    countMatches a b ≤ min a.length b.length := by
  induction a generalizing b with
  | nil => cases b <;> simp [countMatches]
  | cons x xs ih =>
    cases b with
    | nil => simp [countMatches]
    | cons y ys =>
      simp only [countMatches, List.length_cons]
      have := ih ys
      split <;> omega

/-- Every branch of `validate_domain` yields one of the seven statuses, a
high/medium confidence, and a non-empty details string. -/
theorem validate_domain_shape (acc : List Char → Bool) (company email : List Char) :
    (DomainValidator.validate_domain acc company email).status ∈
      [str "No Email Domain", str "No Company Name", str "Free Mailer",
       str "Valid Company Domain", str "Matching Domain - Not Accessible",
       str "Possible Domain Match", str "Domain Mismatch"] ∧
    (DomainValidator.validate_domain acc company email).confidence ∈
      [str "high", str "medium"] ∧
    (DomainValidator.validate_domain acc company email).details ≠ [] := by
  simp only [DomainValidator.validate_domain]
  split_ifs <;>
    refine ⟨by simp, by simp, ?_⟩ <;>
    · repeat' apply ne_nil_append
      decide

/-- Every branch of `is_university` yields a high/medium confidence and a
non-empty reason string. -/
theorem is_university_shape (company country email : List Char) :
    (UniversityDetector.is_university company country email).confidence ∈
      [str "high", str "medium"] ∧
    (UniversityDetector.is_university company country email).reason ≠ [] := by
  simp only [UniversityDetector.is_university]
  split_ifs <;>
    refine ⟨by simp, ?_⟩ <;>
    · repeat' apply ne_nil_append
      decide

/-! ## Claim C6 -/

/-- Claim C6: the similarity score is 0 when either string is empty, 1 on
equal non-empty strings, 0.8 when one is a strict substring of the other,
otherwise the number of agreeing positions divided by the longer length; and
it always lies in [0, 1]. -/
theorem c6_similarity_cases (a b : List Char) :
    ((a = [] ∨ b = []) → DomainValidator.calculate_similarity a b = 0) ∧
    (a ≠ [] → a = b → DomainValidator.calculate_similarity a b = 1) ∧
    (a ≠ [] → b ≠ [] → a ≠ b → (isSubB a b || isSubB b a) = true →
      DomainValidator.calculate_similarity a b = 4/5) ∧
    (a ≠ [] → b ≠ [] → (isSubB a b || isSubB b a) = false →
      DomainValidator.calculate_similarity a b =
        (countMatches a b : ℚ) / (max a.length b.length : ℚ)) ∧
    0 ≤ DomainValidator.calculate_similarity a b ∧
    DomainValidator.calculate_similarity a b ≤ 1 := by
  refine ⟨?_, ?_, ?_, ?_, ?_, ?_⟩
  · intro h
    rcases h with h | h <;> simp [DomainValidator.calculate_similarity, h]
  · intro ha hab
    subst hab
    simp [DomainValidator.calculate_similarity, ha]
  · intro ha hb hne hsub
    simp only [DomainValidator.calculate_similarity]
    rw [if_neg (by simp [ha, hb]), if_neg hne, if_pos hsub, Rat.mkRat_eq_div]
    norm_num
  · intro ha hb hsub
    have hne : a ≠ b := by
      intro e
      subst e
      rw [isSubB_refl] at hsub
      simp at hsub
    have hmax : 0 < max a.length b.length :=
      lt_max_of_lt_left (List.length_pos.mpr ha)
    simp only [DomainValidator.calculate_similarity]
    rw [if_neg (by simp [ha, hb]), if_neg hne, if_neg (by simp [hsub]), if_pos hmax,
      Rat.mkRat_eq_div]
    push_cast
    rfl
  · simp only [DomainValidator.calculate_similarity]
    split_ifs with h1 h2 h3 h4
    · norm_num
    · norm_num
    · rw [Rat.mkRat_eq_div]; norm_num
    · rw [Rat.mkRat_eq_div]; positivity
    · norm_num
  · simp only [DomainValidator.calculate_similarity]
    split_ifs with h1 h2 h3 h4
    · norm_num
    · norm_num
    · rw [Rat.mkRat_eq_div]; norm_num
    · rw [Rat.mkRat_eq_div]
      rw [div_le_one (by exact_mod_cast h4)]
      exact_mod_cast le_trans (countMatches_le_min a b) (min_le_of_left_le (le_max_left _ _))
    · norm_num

/-- Witness for C6 at the substring case of the spec:
`sim("acme", "acmegroup") = 0.8`. -/
theorem c6_witness :
    DomainValidator.calculate_similarity (str "acme") (str "acmegroup") = 4/5 :=
  (c6_similarity_cases (str "acme") (str "acmegroup")).2.2.1
    (by decide) (by decide) (by decide) (by decide)

/-! ## Claim C7 -/

/-- Claim C7: a row whose Status is protected (University Contact, Completed,
Academic, Excluded Domain, Direct Account, Country, Freemail) passes through
the email-move status-update stage and the Mass Market relabel stage with its
Status unchanged. -/
theorem c7_protected_status_preserved (entry : Option (List Char × List Char))
    (row : EmailParser.Row) (s : List Char)
    (hs : EmailParser.rget row (str "Status") = some s)
    (hp : s ∈ MainOrch.protected_statuses) :
    EmailParser.rget (MainOrch.mass_market_update (MainOrch.update_row_status entry row))
      (str "Status") = some s := by
  have h1 : MainOrch.update_row_status entry row = row := by
    unfold MainOrch.update_row_status
    simp [hs, hp]
  rw [h1]
  unfold MainOrch.mass_market_update
  split
  · simp [hs, hp]
  · exact hs

/-- Witness for C7: an `Academic` row with a Mass Market account type and a
pending move outcome keeps its status through both stages. -/
theorem c7_witness :
    EmailParser.rget
      (MainOrch.mass_market_update (MainOrch.update_row_status
        (some (str "Moved", str "moved to folder"))
        [(str "Status", str "Academic"), (str "Account Type", str "Mass Market Account")]))
      (str "Status") = some (str "Academic") :=
  c7_protected_status_preserved (some (str "Moved", str "moved to folder"))
    [(str "Status", str "Academic"), (str "Account Type", str "Mass Market Account")]
    (str "Academic") (by decide) (by decide)

/-! ## Claim C3 -/

/-- Claim C3 (amended): `validate_domain` is deterministic given the DNS
environment — its result depends only on the company, the email, and the
resolvability of the extracted domain; but it does consult DNS, so runs under
different DNS states may differ (see the counterexample). -/
theorem c3_deterministic_given_dns (acc1 acc2 : List Char → Bool) (company email : List Char)
    (h : acc1 (DomainValidator.extract_domain email) =
         acc2 (DomainValidator.extract_domain email)) :
    DomainValidator.validate_domain acc1 company email =
      DomainValidator.validate_domain acc2 company email := by
  simp only [DomainValidator.validate_domain]
  rw [h]

/-- Witness for C3 (amended): two pointwise different oracles that agree on
the one extracted domain produce identical results. -/
theorem c3_witness :
    DomainValidator.validate_domain (fun _ => true) (str "Acme Corp") (str "jane@acme.com") =
      DomainValidator.validate_domain (fun d => decide (d = str "acme.com"))
        (str "Acme Corp") (str "jane@acme.com") :=
  c3_deterministic_given_dns (fun _ => true) (fun d => decide (d = str "acme.com"))
    (str "Acme Corp") (str "jane@acme.com") (by decide)

/-- Counterexample for C3 as stated: with identical company and email
arguments, the result changes when the DNS accessibility of the domain
changes, so the call is not a pure function of its explicit inputs and the
reference set alone. -/
theorem c3_counterexample :
    DomainValidator.validate_domain (fun _ => true) (str "Acme Corp") (str "jane@acme.com") ≠
      DomainValidator.validate_domain (fun _ => false) (str "Acme Corp") (str "jane@acme.com") := by
  decide

/-! ## Claim C8 -/

/-- Claim C8: both classification entry points are total Lean functions (so
they terminate and never raise on any string inputs, empty ones included) and
always return a complete result record: `validate_domain` yields one of the
seven statuses with a high/medium confidence and a non-empty details string,
and `is_university` yields a verdict with a high/medium confidence and a
non-empty reason. -/
theorem c8_total_classification :
    (∀ (acc : List Char → Bool) (company email : List Char),
      (DomainValidator.validate_domain acc company email).status ∈
        [str "No Email Domain", str "No Company Name", str "Free Mailer",
         str "Valid Company Domain", str "Matching Domain - Not Accessible",
         str "Possible Domain Match", str "Domain Mismatch"] ∧
      (DomainValidator.validate_domain acc company email).confidence ∈
        [str "high", str "medium"] ∧
      (DomainValidator.validate_domain acc company email).details ≠ []) ∧
    (∀ company country email : List Char,
      (UniversityDetector.is_university company country email).confidence ∈
        [str "high", str "medium"] ∧
      (UniversityDetector.is_university company country email).reason ≠ []) :=
  ⟨fun acc company email => validate_domain_shape acc company email,
   fun company country email => is_university_shape company country email⟩

/-! ## Claim C1 -/

/-- Claim C1 (amended): for a non-empty, non-free-mailer domain and non-empty
company, with `s` the similarity of the normalized company name and the
normalized reduced main domain label: `s ≥ 0.8` gives `Valid Company Domain`
(high) when the DNS accessibility check succeeds and
`Matching Domain - Not Accessible` (medium) when it fails;
`0.5 ≤ s < 0.8` gives `Possible Domain Match` (medium); `s < 0.5` gives
`Domain Mismatch` (high). -/
theorem c1_similarity_thresholds (acc : List Char → Bool) (company email : List Char)
    (hd : DomainValidator.extract_domain email ≠ [])
    (hf : DomainValidator.is_free_mailer (DomainValidator.extract_domain email) = false)
    (hc : company ≠ []) :
    (mkRat 4 5 ≤ DomainValidator.calculate_similarity (DomainValidator.normalize_name company)
        (DomainValidator.normalize_name (DomainValidator.extract_main_domain
          (DomainValidator.extract_domain email))) →
      acc (DomainValidator.extract_domain email) = true →
      (DomainValidator.validate_domain acc company email).status = str "Valid Company Domain" ∧
      (DomainValidator.validate_domain acc company email).confidence = str "high") ∧
    (mkRat 4 5 ≤ DomainValidator.calculate_similarity (DomainValidator.normalize_name company)
        (DomainValidator.normalize_name (DomainValidator.extract_main_domain
          (DomainValidator.extract_domain email))) →
      acc (DomainValidator.extract_domain email) = false →
      (DomainValidator.validate_domain acc company email).status =
        str "Matching Domain - Not Accessible" ∧
      (DomainValidator.validate_domain acc company email).confidence = str "medium") ∧
    (mkRat 1 2 ≤ DomainValidator.calculate_similarity (DomainValidator.normalize_name company)
        (DomainValidator.normalize_name (DomainValidator.extract_main_domain
          (DomainValidator.extract_domain email))) →
      DomainValidator.calculate_similarity (DomainValidator.normalize_name company)
        (DomainValidator.normalize_name (DomainValidator.extract_main_domain
          (DomainValidator.extract_domain email))) < mkRat 4 5 →
      (DomainValidator.validate_domain acc company email).status = str "Possible Domain Match" ∧
      (DomainValidator.validate_domain acc company email).confidence = str "medium") ∧
    (DomainValidator.calculate_similarity (DomainValidator.normalize_name company)
        (DomainValidator.normalize_name (DomainValidator.extract_main_domain
          (DomainValidator.extract_domain email))) < mkRat 1 2 →
      (DomainValidator.validate_domain acc company email).status = str "Domain Mismatch" ∧
      (DomainValidator.validate_domain acc company email).confidence = str "high") := by
  have hds : (DomainValidator.extract_domain email).isEmpty = false := by simp [hd]
  have hcs : company.isEmpty = false := by simp [hc]
  refine ⟨?_, ?_, ?_, ?_⟩
  · intro hsim hacc
    simp only [DomainValidator.validate_domain, hds, hcs, hf, Bool.false_eq_true,
      if_false, hacc, if_true, ge_iff_le, if_pos hsim]
    exact ⟨by trivial, by trivial⟩
  · intro hsim hacc
    simp only [DomainValidator.validate_domain, hds, hcs, hf, Bool.false_eq_true,
      if_false, hacc, ge_iff_le, if_pos hsim]
    exact ⟨by trivial, by trivial⟩
  · intro hlo hhi
    simp only [DomainValidator.validate_domain, hds, hcs, hf, Bool.false_eq_true,
      if_false, ge_iff_le, if_neg (not_le.mpr hhi), if_pos hlo]
    exact ⟨by trivial, by trivial⟩
  · intro hhi
    have h45 : mkRat 1 2 < mkRat 4 5 := by
      rw [Rat.mkRat_eq_div, Rat.mkRat_eq_div]
      norm_num
    simp only [DomainValidator.validate_domain, hds, hcs, hf, Bool.false_eq_true,
      if_false, ge_iff_le, if_neg (not_le.mpr (lt_trans hhi h45)), if_neg (not_le.mpr hhi)]
    exact ⟨by trivial, by trivial⟩

/-- Witness for C1 (amended): "Acme Corp" against jane@acme.com with the
domain accessible gives `Valid Company Domain`, confidence high. -/
theorem c1_witness :
    (DomainValidator.validate_domain (fun _ => true) (str "Acme Corp")
      (str "jane@acme.com")).status = str "Valid Company Domain" ∧
    (DomainValidator.validate_domain (fun _ => true) (str "Acme Corp")
      (str "jane@acme.com")).confidence = str "high" :=
  (c1_similarity_thresholds (fun _ => true) (str "Acme Corp") (str "jane@acme.com")
    (by decide) (by decide) (by decide)).1 (by decide) (by decide)

/-- Counterexample for C1 as stated: every premise of the claim holds
("Acme Corp" / jane@acme.com, domain non-empty, not a free mailer, company
non-empty, similarity ≥ 0.8), yet when the domain fails the DNS accessibility
check the status is `Matching Domain - Not Accessible` with confidence
medium, not `Valid Company Domain` with confidence high. -/
theorem c1_counterexample :
    DomainValidator.extract_domain (str "jane@acme.com") ≠ [] ∧
    DomainValidator.is_free_mailer (DomainValidator.extract_domain (str "jane@acme.com")) =
      false ∧
    str "Acme Corp" ≠ [] ∧
    mkRat 4 5 ≤ DomainValidator.calculate_similarity
      (DomainValidator.normalize_name (str "Acme Corp"))
      (DomainValidator.normalize_name (DomainValidator.extract_main_domain
        (DomainValidator.extract_domain (str "jane@acme.com")))) ∧
    (DomainValidator.validate_domain (fun _ => false) (str "Acme Corp")
      (str "jane@acme.com")).status = str "Matching Domain - Not Accessible" ∧
    (DomainValidator.validate_domain (fun _ => false) (str "Acme Corp")
      (str "jane@acme.com")).confidence = str "medium" ∧
    str "Matching Domain - Not Accessible" ≠ str "Valid Company Domain" := by
  decide

/-! ## Claim C2 -/

/-- Claim C2 (amended): `validate_domain` performs no excluded-domain check
and never returns an excluded-domain status; the excluded-domain outcome is
produced by the reference-data loader's `validate_lead`, where the check runs
after the blacklisted-country and direct-account checks and before the
academic and freemail checks. -/
theorem c2_excluded_via_loader (L : ValidationData.Loader) (acc : List Char → Bool)
    (company country email : List Char)
    (hb : ValidationData.is_blacklisted_country L country = false)
    (hdir : ValidationData.is_direct_account L company = false)
    (hex : ValidationData.is_excluded_domain L (ValidationData.lead_domain email) = true) :
    ValidationData.validate_lead L company country email =
      ⟨false, str "Excluded domain: " ++ ValidationData.lead_domain email,
        str "Excluded Domain"⟩ ∧
    (DomainValidator.validate_domain acc company email).status ≠ str "Excluded Domain" := by
  constructor
  · simp only [ValidationData.validate_lead, hb, hdir, hex, Bool.false_eq_true,
      if_false, if_true]
  · intro hEq
    have h := (validate_domain_shape acc company email).1
    rw [hEq] at h
    exact absurd h (by decide)

/-- Witness for C2 (amended): with badcorp.com on the excluded list,
`validate_lead` flags the lead as Excluded Domain while `validate_domain`
reports a similarity-based status. -/
theorem c2_witness :
    ValidationData.validate_lead ⟨[], [str "badcorp.com"], [], [], []⟩ (str "Acme") []
      (str "a@badcorp.com") =
      ⟨false, str "Excluded domain: " ++ ValidationData.lead_domain (str "a@badcorp.com"),
        str "Excluded Domain"⟩ ∧
    (DomainValidator.validate_domain (fun _ => false) (str "Acme")
      (str "a@badcorp.com")).status ≠ str "Excluded Domain" :=
  c2_excluded_via_loader ⟨[], [str "badcorp.com"], [], [], []⟩ (fun _ => false)
    (str "Acme") [] (str "a@badcorp.com") (by decide) (by decide) (by decide)

/-- Counterexample for C2 as stated: badcorp.com is on the excluded-domains
reference list, is not a free mailer, the company is non-empty and the domain
non-empty, yet `validate_domain` returns `Domain Mismatch` — the
excluded-domain check does not exist inside `validate_domain`. -/
theorem c2_counterexample :
    ValidationData.is_excluded_domain ⟨[], [str "badcorp.com"], [], [], []⟩
      (DomainValidator.extract_domain (str "a@badcorp.com")) = true ∧
    DomainValidator.is_free_mailer (DomainValidator.extract_domain (str "a@badcorp.com")) =
      false ∧
    DomainValidator.extract_domain (str "a@badcorp.com") ≠ [] ∧
    str "Acme" ≠ [] ∧
    (DomainValidator.validate_domain (fun _ => false) (str "Acme")
      (str "a@badcorp.com")).status = str "Domain Mismatch" ∧
    str "Domain Mismatch" ≠ str "Excluded Domain" := by
  decide

/-! ## Claim C4 -/

/-- Claim C4 (amended): when neither the known-university rule nor the
known-commercial rule matched, the domain is not a free mailer and has no
strict academic TLD, the detector returns academic with confidence high
exactly when the normalized domain contains one of the tokens
university/universitat/college/academic/scholar/campus/edu as a contiguous
substring — a token occurring inside a longer word (such as `edu` in
`educate`) does fire the rule. -/
theorem c4_domain_keyword_rule (company country email : List Char)
    (h1 : UniversityDetector.matches_known_university company country = false)
    (h2 : UniversityDetector.is_commercial_company company = false)
    (h3 : UniversityDetector.is_free_mailer (UniversityDetector.extract_domain email) = false)
    (h4 : UniversityDetector.has_strict_academic_tld
      (UniversityDetector.extract_domain email) = false) :
    ((UniversityDetector.is_university company country email).is_univ = true ∧
     (UniversityDetector.is_university company country email).confidence = str "high") ↔
    UniversityDetector.domain_contains_university_keyword
      (UniversityDetector.extract_domain email) = true := by
  simp only [UniversityDetector.is_university, h1, h2, h3, h4, Bool.false_eq_true,
    if_false, Bool.not_false, Bool.true_and, Bool.false_and]
  constructor
  · intro h
    by_cases hk : UniversityDetector.domain_contains_university_keyword
        (UniversityDetector.extract_domain email) = true
    · exact hk
    · rw [if_neg hk] at h
      rcases h with ⟨hu, hc⟩
      split_ifs at hu hc
      simp_all
      exact absurd hc (by decide)
  · intro hk
    rw [if_pos hk]
    exact ⟨rfl, rfl⟩

/-- Witness for C4 (amended): uni-campus.com contains the token campus, and
the detector fires the keyword rule with confidence high. -/
theorem c4_witness :
    (UniversityDetector.is_university (str "Foo") [] (str "a@uni-campus.com")).is_univ = true ∧
    (UniversityDetector.is_university (str "Foo") [] (str "a@uni-campus.com")).confidence =
      str "high" :=
  (c4_domain_keyword_rule (str "Foo") [] (str "a@uni-campus.com")
    (by decide) (by decide) (by decide) (by decide)).mpr (by decide)

/-- Counterexample for C4 as stated: for the domain educate.com the token
`edu` occurs only as a proper substring of the word `educate` — the
spec-level whole-word predicate is false — yet all side conditions of the
claim hold and the detector still returns academic with confidence high. -/
theorem c4_counterexample :
    domain_keyword_spec (UniversityDetector.extract_domain (str "a@educate.com")) = false ∧
    UniversityDetector.matches_known_university (str "Foo") [] = false ∧
    UniversityDetector.is_commercial_company (str "Foo") = false ∧
    UniversityDetector.is_free_mailer
      (UniversityDetector.extract_domain (str "a@educate.com")) = false ∧
    UniversityDetector.has_strict_academic_tld
      (UniversityDetector.extract_domain (str "a@educate.com")) = false ∧
    (UniversityDetector.is_university (str "Foo") [] (str "a@educate.com")).is_univ = true ∧
    (UniversityDetector.is_university (str "Foo") [] (str "a@educate.com")).confidence =
      str "high" := by
  decide

/-! ## Claim C5 -/

/-- Claim C5 (amended): if some institution gathered for the country has its
normalized name equal to the normalized company name, or occurring as a
contiguous substring of it with every one of its words among the
company-name words, the detector returns academic with confidence high; the
rule runs first, so no commercial-company hypothesis is needed. -/
theorem c5_known_university_rule (company country email uni : List Char)
    (hc : company ≠ []) (hk : country ≠ [])
    (hu : uni ∈ UniversityDetector.gather_universities
      (UniversityDetector.normalize_text country))
    (hm : UniversityDetector.normalize_text company = UniversityDetector.normalize_text uni ∨
      (isSubB (UniversityDetector.normalize_text uni)
          (UniversityDetector.normalize_text company) = true ∧
        ∀ w ∈ pySplit (UniversityDetector.normalize_text uni),
          w ∈ pySplit (UniversityDetector.normalize_text company))) :
    (UniversityDetector.is_university company country email).is_univ = true ∧
    (UniversityDetector.is_university company country email).confidence = str "high" := by
  have hmk : UniversityDetector.matches_known_university company country = true := by
    unfold UniversityDetector.matches_known_university
    rw [if_neg (by simp [hc, hk])]
    rw [if_neg (by simp [List.ne_nil_of_mem hu])]
    refine List.any_eq_true.mpr ⟨uni, hu, ?_⟩
    rcases hm with hm | ⟨hsub, hall⟩
    · simp [hm]
    · refine Bool.or_eq_true_iff.mpr (Or.inr ?_)
      refine Bool.and_eq_true_iff.mpr ⟨hsub, List.all_eq_true.mpr ?_⟩
      intro w hw
      exact decide_eq_true (hall w hw)
  simp only [UniversityDetector.is_university, hmk, if_true]
  exact ⟨by trivial, by trivial⟩

/-- Witness for C5 (amended): "Ankara University", country Turkey — the
gathered institution "ankara university" matches exactly and the detector
answers academic, confidence high. -/
theorem c5_witness :
    (UniversityDetector.is_university (str "Ankara University") (str "Turkey") []).is_univ =
      true ∧
    (UniversityDetector.is_university (str "Ankara University") (str "Turkey") []).confidence =
      str "high" :=
  c5_known_university_rule (str "Ankara University") (str "Turkey") [] (str "ankara university")
    (by decide) (by decide) (by decide) (Or.inl (by decide))

/-- Counterexample for C5 as stated: for company "University Ankara" and
country Turkey, the institution "ankara university" is listed under the
country and every word of its normalized name occurs among the company-name
words, yet the detector does not fire the known-university rule (the name is
not a contiguous substring) and answers only via the keyword rule with
confidence medium, not high. -/
theorem c5_counterexample :
    str "ankara university" ∈ UniversityDetector.gather_universities
      (UniversityDetector.normalize_text (str "Turkey")) ∧
    (∀ w ∈ pySplit (UniversityDetector.normalize_text (str "ankara university")),
      w ∈ pySplit (UniversityDetector.normalize_text (str "University Ankara"))) ∧
    UniversityDetector.matches_known_university (str "University Ankara") (str "Turkey") =
      false ∧
    (UniversityDetector.is_university (str "University Ankara") (str "Turkey") []).is_univ =
      true ∧
    (UniversityDetector.is_university (str "University Ankara") (str "Turkey") []).confidence =
      str "medium" ∧
    str "medium" ≠ str "high" := by
  decide

/-! ## Claim C9 -/

theorem isLowDig_ne_space {c : Char} (h : isLowDig c = true) : c ≠ ' ' := by
  intro e
  subst e
  exact absurd h (by decide)

theorem isLowDig_toNat_lt {c : Char} (h : isLowDig c = true) : c.toNat < 128 := by
  simp only [isLowDig, Bool.or_eq_true, Bool.and_eq_true, decide_eq_true_eq] at h
  omega

theorem umlautExpand_id {c : Char} (h : c.toNat < 128) :
    UniversityDetector.umlautExpand c = [c] := by
  unfold UniversityDetector.umlautExpand
  split_ifs <;> first
    | rfl
    | (subst_vars; exact absurd h (by decide))

theorem nfkdAscii_id {c : Char} (h : c.toNat < 128) :
    UniversityDetector.nfkdAscii c = [c] := by
  unfold UniversityDetector.nfkdAscii
  rw [if_pos h]

theorem lowerC_id {c : Char} (h : isLowDig c = true ∨ c = ' ') : lowerC c = c := by
  have hn : ¬(65 ≤ c.toNat ∧ c.toNat ≤ 90) := by
    rcases h with h | h
    · simp only [isLowDig, Bool.or_eq_true, Bool.and_eq_true, decide_eq_true_eq] at h
      omega
    · subst h
      decide
  unfold lowerC
  rw [if_neg hn]

theorem flatMap_id_of (f : Char → List Char) (l : List Char) (h : ∀ c ∈ l, f c = [c]) :
    l.flatMap f = l := by
  induction l with
  | nil => rfl
  | cons c rest ih =>
    rw [List.flatMap_cons, h c (by simp), ih (fun d hd => h d (by simp [hd]))]
    rfl

theorem map_id_of (f : Char → Char) (l : List Char) (h : ∀ c ∈ l, f c = c) :
    l.map f = l := by
  induction l with
  | nil => rfl
  | cons c rest ih =>
    rw [List.map_cons, h c (by simp), ih (fun d hd => h d (by simp [hd]))]

theorem wordsByAux_shape (p : Char → Bool) :
    ∀ l acc : List Char, acc.all p = true →
      ∀ w ∈ wordsByAux p l acc, w ≠ [] ∧ w.all p = true := by
  intro l
  induction l with
  | nil =>
    intro acc hacc w hw
    by_cases he : acc.isEmpty
    · simp [wordsByAux, he] at hw
    · simp only [wordsByAux, he, Bool.false_eq_true, if_false, List.mem_singleton] at hw
      subst hw
      refine ⟨by simpa using (List.isEmpty_eq_false.mp (by simpa using he)), by simpa using hacc⟩
  | cons c rest ih =>
    intro acc hacc w hw
    simp only [wordsByAux] at hw
    by_cases hpc : p c
    · rw [if_pos hpc] at hw
      exact ih (c :: acc) (by simp [hacc, hpc]) w hw
    · rw [if_neg hpc] at hw
      by_cases he : acc.isEmpty
      · rw [if_pos he] at hw
        exact ih [] rfl w hw
      · rw [if_neg he] at hw
        rcases List.mem_cons.mp hw with hw | hw
        · subst hw
          refine ⟨by simpa using (List.isEmpty_eq_false.mp (by simpa using he)),
            by simpa using hacc⟩
        · exact ih [] rfl w hw

theorem wordsByAux_append_word (p : Char → Bool) :
    ∀ w l acc : List Char, w.all p = true →
      wordsByAux p (w ++ l) acc = wordsByAux p l (w.reverse ++ acc) := by
  intro w
  induction w with
  | nil => intro l acc _; simp
  | cons c w2 ih =>
    intro l acc hw
    simp only [List.all_cons, Bool.and_eq_true] at hw
    simp only [List.cons_append, wordsByAux, hw.1, if_true, List.append_eq]
    rw [ih l (c :: acc) hw.2]
    simp

theorem wordsBy_join (p : Char → Bool) (hsp : p ' ' = false) :
    ∀ ws : List (List Char), (∀ w ∈ ws, w ≠ [] ∧ w.all p = true) →
      wordsBy p (joinWords ws) = ws := by
  intro ws
  induction ws with
  | nil => intro _; rfl
  | cons w ws2 ih =>
    intro h
    have hw := h w (by simp)
    cases ws2 with
    | nil =>
      show wordsBy p (joinWords [w]) = [w]
      simp only [joinWords]
      unfold wordsBy
      have h1 : wordsByAux p w [] = wordsByAux p (w ++ []) [] := by rw [List.append_nil]
      rw [h1, wordsByAux_append_word p w [] [] hw.2]
      simp [wordsByAux, hw.1]
    | cons w2 ws3 =>
      show wordsBy p (joinWords (w :: w2 :: ws3)) = w :: w2 :: ws3
      have hj : joinWords (w :: w2 :: ws3) = w ++ ' ' :: joinWords (w2 :: ws3) := rfl
      unfold wordsBy
      rw [hj, wordsByAux_append_word p w _ [] hw.2]
      have h2 : (w.reverse ++ ([] : List Char)).isEmpty = false := by
        simp [hw.1]
      simp only [wordsByAux, hsp, Bool.false_eq_true, if_false, h2]
      rw [List.append_nil, List.reverse_reverse]
      have := ih (fun x hx => h x (by simp [hx]))
      unfold wordsBy at this
      rw [this]

theorem mem_joinWords {c : Char} : ∀ ws : List (List Char), c ∈ joinWords ws →
    c = ' ' ∨ ∃ w ∈ ws, c ∈ w := by
  intro ws
  induction ws with
  | nil => intro h; simp [joinWords] at h
  | cons w ws2 ih =>
    cases ws2 with
    | nil =>
      intro h
      simp only [joinWords] at h
      exact Or.inr ⟨w, by simp, h⟩
    | cons w2 ws3 =>
      intro h
      rw [show joinWords (w :: w2 :: ws3) = w ++ ' ' :: joinWords (w2 :: ws3) from rfl] at h
      rcases List.mem_append.mp h with h | h
      · exact Or.inr ⟨w, by simp, h⟩
      · rcases List.mem_cons.mp h with h | h
        · exact Or.inl h
        · rcases ih h with h | ⟨w3, hw3, hc⟩
          · exact Or.inl h
          · exact Or.inr ⟨w3, by simp [hw3], hc⟩

theorem spacingOk_word (w : List Char) (hne : w ≠ []) (hall : w.all isLowDig = true) :
    ∀ b l, spacingOk b (w ++ l) = spacingOk true l := by
  induction w with
  | nil => exact absurd rfl hne
  | cons c w2 ih =>
    intro b l
    simp only [List.all_cons, Bool.and_eq_true] at hall
    have hc : ¬(c = ' ') := isLowDig_ne_space hall.1
    simp only [List.cons_append, spacingOk]
    rw [if_neg hc]
    cases w2 with
    | nil => simp
    | cons d w3 => exact ih (by simp) hall.2 true l

theorem getLast?_all (q : Char → Bool) : ∀ w : List Char, w ≠ [] → w.all q = true →
    ∃ c, w.getLast? = some c ∧ q c = true := by
  intro w
  induction w with
  | nil => intro h; exact absurd rfl h
  | cons c w2 ih =>
    intro _ hall
    simp only [List.all_cons, Bool.and_eq_true] at hall
    cases w2 with
    | nil => exact ⟨c, rfl, hall.1⟩
    | cons d w3 =>
      rcases ih (by simp) hall.2 with ⟨e, he, hq⟩
      exact ⟨e, by rw [List.getLast?_cons_cons]; exact he, hq⟩

theorem joinWords_ne_nil (w : List Char) (ws : List (List Char)) (hne : w ≠ []) :
    joinWords (w :: ws) ≠ [] := by
  cases ws with
  | nil => simpa [joinWords] using hne
  | cons w2 ws2 => exact ne_nil_append w _ hne

theorem spacingOk_join : ∀ ws : List (List Char),
    (∀ w ∈ ws, w ≠ [] ∧ w.all isLowDig = true) →
      spacingOk false (joinWords ws) = true := by
  intro ws
  induction ws with
  | nil => intro _; rfl
  | cons w ws2 ih =>
    intro h
    have hw := h w (by simp)
    cases ws2 with
    | nil =>
      show spacingOk false (joinWords [w]) = true
      simp only [joinWords]
      have h1 : spacingOk false w = spacingOk false (w ++ []) := by rw [List.append_nil]
      rw [h1, spacingOk_word w hw.1 hw.2 false []]
      rfl
    | cons w2 ws3 =>
      show spacingOk false (w ++ ' ' :: joinWords (w2 :: ws3)) = true
      rw [spacingOk_word w hw.1 hw.2 false _]
      have hrest := ih (fun x hx => h x (by simp [hx]))
      simp [spacingOk, hrest]

theorem getLast?_join : ∀ ws : List (List Char),
    (∀ w ∈ ws, w ≠ [] ∧ w.all isLowDig = true) →
      (joinWords ws).getLast? ≠ some ' ' := by
  intro ws
  induction ws with
  | nil => intro _; simp [joinWords]
  | cons w ws2 ih =>
    intro h
    have hw := h w (by simp)
    cases ws2 with
    | nil =>
      show (joinWords [w]).getLast? ≠ some ' '
      simp only [joinWords]
      rcases getLast?_all isLowDig w hw.1 hw.2 with ⟨c, hc, hq⟩
      rw [hc]
      exact fun e => isLowDig_ne_space hq (by injection e)
    | cons w2 ws3 =>
      show (w ++ ' ' :: joinWords (w2 :: ws3)).getLast? ≠ some ' '
      rw [List.getLast?_append]
      have hne : joinWords (w2 :: ws3) ≠ [] :=
        joinWords_ne_nil w2 ws3 (h w2 (by simp)).1
      have hcc : (' ' :: joinWords (w2 :: ws3)).getLast? =
          (joinWords (w2 :: ws3)).getLast? := by
        cases hj : joinWords (w2 :: ws3) with
        | nil => exact absurd hj hne
        | cons a as => rw [List.getLast?_cons_cons]
      rw [hcc]
      have hrest := ih (fun x hx => h x (by simp [hx]))
      cases hjl : (joinWords (w2 :: ws3)).getLast? with
      | none => exact absurd (List.getLast?_eq_none_iff.mp hjl) hne
      | some c =>
        rw [hjl] at hrest
        simpa [Option.or] using hrest

theorem canonForm_join (ws : List (List Char))
    (h : ∀ w ∈ ws, w ≠ [] ∧ w.all isLowDig = true) :
    canonForm (joinWords ws) = true := by
  unfold canonForm
  refine Bool.and_eq_true_iff.mpr ⟨Bool.and_eq_true_iff.mpr ⟨?_, spacingOk_join ws h⟩, ?_⟩
  · refine List.all_eq_true.mpr ?_
    intro c hc
    rcases mem_joinWords ws hc with h1 | ⟨w, hw, hcw⟩
    · subst h1; simp
    · have hcd : isLowDig c = true := List.all_eq_true.mp (h w hw).2 c hcw
      simp [hcd]
  · exact decide_eq_true (getLast?_join ws h)

theorem normalize_text_canon (t : List Char) :
    UniversityDetector.normalize_text t = [] ∨
    ∃ ws, (∀ w ∈ ws, w ≠ [] ∧ w.all isLowDig = true) ∧
      UniversityDetector.normalize_text t = joinWords ws := by
  by_cases h : t.isEmpty
  · left
    simp [UniversityDetector.normalize_text, h]
  · right
    refine ⟨wordsBy isLowDig (((t.flatMap UniversityDetector.umlautExpand).flatMap
      UniversityDetector.nfkdAscii).map lowerC), ?_, ?_⟩
    · exact fun w hw => wordsByAux_shape isLowDig _ [] rfl w hw
    · simp [UniversityDetector.normalize_text, h, wordsBy]

theorem normalize_join (ws : List (List Char))
    (hws : ∀ w ∈ ws, w ≠ [] ∧ w.all isLowDig = true) :
    UniversityDetector.normalize_text (joinWords ws) = joinWords ws := by
  by_cases hj : (joinWords ws).isEmpty
  · simp only [UniversityDetector.normalize_text, hj, if_true]
    exact (List.isEmpty_iff.mp hj).symm
  · have hchar : ∀ c ∈ joinWords ws, isLowDig c = true ∨ c = ' ' := by
      intro c hc
      rcases mem_joinWords ws hc with h1 | ⟨w, hw, hcw⟩
      · right; exact h1
      · left; exact List.all_eq_true.mp (hws w hw).2 c hcw
    have h128 : ∀ c ∈ joinWords ws, c.toNat < 128 := by
      intro c hc
      rcases hchar c hc with h1 | h1
      · exact isLowDig_toNat_lt h1
      · subst h1; decide
    simp only [UniversityDetector.normalize_text, hj, Bool.false_eq_true, if_false]
    rw [flatMap_id_of _ _ (fun c hc => umlautExpand_id (h128 c hc))]
    rw [flatMap_id_of _ _ (fun c hc => nfkdAscii_id (h128 c hc))]
    rw [map_id_of _ _ (fun c hc => lowerC_id (hchar c hc))]
    rw [wordsBy_join isLowDig (by decide) ws hws]

theorem normalize_text_idem (t : List Char) :
    UniversityDetector.normalize_text (UniversityDetector.normalize_text t) =
      UniversityDetector.normalize_text t := by
  rcases normalize_text_canon t with h | ⟨ws, hws, heq⟩
  · rw [h]
    rfl
  · rw [heq]
    exact normalize_join ws hws

theorem normalize_text_canonForm (t : List Char) :
    canonForm (UniversityDetector.normalize_text t) = true := by
  rcases normalize_text_canon t with h | ⟨ws, hws, heq⟩
  · rw [h]
    rfl
  · rw [heq]
    exact canonForm_join ws hws

/-- Claim C9: the normalizer is idempotent; its output consists only of
lowercase ASCII alphanumerics separated by single spaces, with no leading or
trailing space; and `normalize("GmbH Müller") = "gmbh muller"`, which contains
no umlaut and no uppercase letter. -/
theorem c9_normalizer (x : List Char) :
    UniversityDetector.normalize_text (UniversityDetector.normalize_text x) =
      UniversityDetector.normalize_text x ∧
    canonForm (UniversityDetector.normalize_text x) = true ∧
    UniversityDetector.normalize_text (str "GmbH Müller") = str "gmbh muller" ∧
    (∀ c ∈ UniversityDetector.normalize_text (str "GmbH Müller"),
      ¬(65 ≤ c.toNat ∧ c.toNat ≤ 90) ∧ c ∉ ['ä', 'ö', 'ü', 'Ä', 'Ö', 'Ü']) :=
  ⟨normalize_text_idem x, normalize_text_canonForm x, by decide, by decide⟩

/-! ## Claim C10 -/

theorem rget_rset_eq (r : EmailParser.Row) (k v g : List Char) :
    EmailParser.rget (EmailParser.rset r k v) g =
      if k = g then some v else EmailParser.rget r g := rfl

theorem rget_rset_ne (r : EmailParser.Row) (k v g : List Char) (h : ¬(k = g)) :
    EmailParser.rget (EmailParser.rset r k v) g = EmailParser.rget r g := by
  rw [rget_rset_eq, if_neg h]

theorem isSome_rset (r : EmailParser.Row) (k v g : List Char)
    (h : (EmailParser.rget r g).isSome = true) :
    (EmailParser.rget (EmailParser.rset r k v) g).isSome = true := by
  rw [rget_rset_eq]
  split
  · rfl
  · exact h

theorem rget_header_other (a b c d g : List Char)
    (h1 : ¬(str "Subject" = g)) (h2 : ¬(str "Sender" = g))
    (h3 : ¬(str "ReceivedTime" = g)) (h4 : ¬(str "All Emails Found" = g)) :
    EmailParser.rget (EmailParser.header_row a b c d) g = none := by
  unfold EmailParser.header_row
  show EmailParser.rget (EmailParser.rset (EmailParser.rset (EmailParser.rset
    (EmailParser.rset [] (str "All Emails Found") d) (str "ReceivedTime") c)
    (str "Sender") b) (str "Subject") a) g = none
  rw [rget_rset_ne _ _ _ _ h1, rget_rset_ne _ _ _ _ h2, rget_rset_ne _ _ _ _ h3,
    rget_rset_ne _ _ _ _ h4]
  rfl

theorem fill_foldl_preserve (data : List Char → Option (List Char)) :
    ∀ (fs : List (List Char)) (r : EmailParser.Row) (g v : List Char),
      EmailParser.rget r g = some v →
      EmailParser.rget (fs.foldl (EmailParser.fillStep data) r) g = some v := by
  intro fs
  induction fs with
  | nil => intro r g v h; simpa using h
  | cons f fs2 ih =>
    intro r g v h
    rw [List.foldl_cons]
    refine ih (EmailParser.fillStep data r f) g v ?_
    unfold EmailParser.fillStep
    split
    · rw [rget_rset_eq]
      split
      · next he =>
        subst he
        simp_all
      · exact h
    · exact h

theorem fill_foldl_isSome (data : List Char → Option (List Char)) :
    ∀ (fs : List (List Char)) (r : EmailParser.Row) (g : List Char), g ∈ fs →
      (EmailParser.rget (fs.foldl (EmailParser.fillStep data) r) g).isSome = true := by
  intro fs
  induction fs with
  | nil => intro r g h; simp at h
  | cons f fs2 ih =>
    intro r g hg
    rw [List.foldl_cons]
    rcases List.mem_cons.mp hg with he | hg2
    · subst he
      cases hv : EmailParser.rget r g with
      | none =>
        have : EmailParser.rget (EmailParser.fillStep data r g) g =
            some ((data g).getD []) := by
          unfold EmailParser.fillStep
          rw [if_pos hv, rget_rset_eq, if_pos rfl]
        rw [fill_foldl_preserve data fs2 _ g _ this]
        rfl
      | some v =>
        have : EmailParser.rget (EmailParser.fillStep data r g) g = some v := by
          unfold EmailParser.fillStep
          split
          · simp_all
          · exact hv
        rw [fill_foldl_preserve data fs2 _ g _ this]
        rfl
    · exact ih (EmailParser.fillStep data r f) g hg2

theorem fill_foldl_new (data : List Char → Option (List Char)) :
    ∀ (fs : List (List Char)) (r : EmailParser.Row) (g : List Char), g ∈ fs →
      EmailParser.rget r g = none →
      EmailParser.rget (fs.foldl (EmailParser.fillStep data) r) g =
        some ((data g).getD []) := by
  intro fs
  induction fs with
  | nil => intro r g h; simp at h
  | cons f fs2 ih =>
    intro r g hg h0
    rw [List.foldl_cons]
    by_cases he : f = g
    · subst he
      have : EmailParser.rget (EmailParser.fillStep data r f) f =
          some ((data f).getD []) := by
        unfold EmailParser.fillStep
        rw [if_pos h0, rget_rset_eq, if_pos rfl]
      exact fill_foldl_preserve data fs2 _ f _ this
    · rcases List.mem_cons.mp hg with he2 | hg2
      · exact absurd he2.symm he
      · refine ih (EmailParser.fillStep data r f) g hg2 ?_
        unfold EmailParser.fillStep
        split
        · rw [rget_rset_ne _ _ _ _ he]
          exact h0
        · exact h0

theorem contact_flag_other (r : EmailParser.Row) (g : List Char)
    (h : ¬(str "Has Contact Sales Form" = g)) :
    EmailParser.rget (EmailParser.with_contact_flag r) g = EmailParser.rget r g := by
  unfold EmailParser.with_contact_flag
  rw [rget_rset_ne _ _ _ _ h]

theorem isSome_contact_flag (r : EmailParser.Row) (g : List Char)
    (h : (EmailParser.rget r g).isSome = true) :
    (EmailParser.rget (EmailParser.with_contact_flag r) g).isSome = true := by
  unfold EmailParser.with_contact_flag
  exact isSome_rset _ _ _ _ h

theorem isSome_validation (loader : Option ValidationData.Loader)
    (company country email : List Char) (r : EmailParser.Row) (g : List Char)
    (h : (EmailParser.rget r g).isSome = true) :
    (EmailParser.rget (EmailParser.apply_validation loader company country email r) g).isSome =
      true := by
  unfold EmailParser.apply_validation
  cases loader with
  | none => exact h
  | some L =>
    dsimp only
    split
    · exact isSome_rset _ _ _ _ (isSome_rset _ _ _ _ (isSome_rset _ _ _ _
        (isSome_rset _ _ _ _ h)))
    · exact isSome_rset _ _ _ _ (isSome_rset _ _ _ _ h)

theorem isSome_university (hasDetector : Bool) (company country email : List Char)
    (r : EmailParser.Row) (g : List Char)
    (h : (EmailParser.rget r g).isSome = true) :
    (EmailParser.rget (EmailParser.apply_university hasDetector company country email r)
      g).isSome = true := by
  unfold EmailParser.apply_university
  split
  · dsimp only
    split
    · exact isSome_rset _ _ _ _ (isSome_rset _ _ _ _ h)
    · exact h
  · exact h

theorem isSome_default_status (r : EmailParser.Row) (g : List Char)
    (h : (EmailParser.rget r g).isSome = true) :
    (EmailParser.rget (EmailParser.default_status r) g).isSome = true := by
  unfold EmailParser.default_status
  split
  · exact isSome_rset _ _ _ _ h
  · exact h

theorem isSome_default_action (r : EmailParser.Row) (g : List Char)
    (h : (EmailParser.rget r g).isSome = true) :
    (EmailParser.rget (EmailParser.default_action r) g).isSome = true := by
  unfold EmailParser.default_action
  split
  · exact isSome_rset _ _ _ _ h
  · exact h

theorem status_nonempty_final (r : EmailParser.Row) :
    ∃ s, EmailParser.rget (EmailParser.default_action (EmailParser.default_status r))
      (str "Status") = some s ∧ s ≠ [] := by
  have hact : ∀ r2 : EmailParser.Row,
      EmailParser.rget (EmailParser.default_action r2) (str "Status") =
        EmailParser.rget r2 (str "Status") := by
    intro r2
    unfold EmailParser.default_action
    split
    · exact rget_rset_ne _ _ _ _ (by decide)
    · rfl
  rw [hact]
  unfold EmailParser.default_status
  by_cases h : ((EmailParser.rget r (str "Status")).getD []).isEmpty
  · rw [if_pos h, rget_rset_eq, if_pos rfl]
    exact ⟨str "Not Started", rfl, by decide⟩
  · rw [if_neg h]
    cases hs : EmailParser.rget r (str "Status") with
    | none =>
      rw [hs] at h
      simp at h
    | some s =>
      rw [hs] at h
      exact ⟨s, rfl, by simpa using h⟩

theorem parse_email_eq (subject sender received allEmails : List Char)
    (data : List Char → Option (List Char)) (loader : Option ValidationData.Loader)
    (hasDetector : Bool) :
    EmailParser.parse_email subject sender received allEmails data loader hasDetector =
      EmailParser.default_action (EmailParser.default_status
        (EmailParser.apply_university hasDetector
          ((EmailParser.rget (EmailParser.with_contact_flag (EmailParser.fill_fields data
            (EmailParser.header_row subject sender received allEmails)))
            (str "Company")).getD [])
          ((EmailParser.rget (EmailParser.with_contact_flag (EmailParser.fill_fields data
            (EmailParser.header_row subject sender received allEmails)))
            (str "Country")).getD [])
          ((EmailParser.rget (EmailParser.with_contact_flag (EmailParser.fill_fields data
            (EmailParser.header_row subject sender received allEmails)))
            (str "Email Address")).getD [])
          (EmailParser.apply_validation loader
            ((EmailParser.rget (EmailParser.with_contact_flag (EmailParser.fill_fields data
              (EmailParser.header_row subject sender received allEmails)))
              (str "Company")).getD [])
            ((EmailParser.rget (EmailParser.with_contact_flag (EmailParser.fill_fields data
              (EmailParser.header_row subject sender received allEmails)))
              (str "Country")).getD [])
            ((EmailParser.rget (EmailParser.with_contact_flag (EmailParser.fill_fields data
              (EmailParser.header_row subject sender received allEmails)))
              (str "Email Address")).getD [])
            (EmailParser.with_contact_flag (EmailParser.fill_fields data
              (EmailParser.header_row subject sender received allEmails)))))) := rfl

/-- Claim C10: every row built by `parse_email` binds every catalogued field
name; the Status field is always bound and non-empty; and when the scraped
data has no status, the loader (if any) reports the lead valid and the
detector (if any) reports no university, the status defaults to
`Not Started`. -/
theorem c10_parse_email_fields (subject sender received allEmails : List Char)
    (data : List Char → Option (List Char)) (loader : Option ValidationData.Loader)
    (hasDetector : Bool) :
    (∀ f ∈ EmailParser.FIELDS,
      (EmailParser.rget (EmailParser.parse_email subject sender received allEmails data
        loader hasDetector) f).isSome = true) ∧
    (∃ s, EmailParser.rget (EmailParser.parse_email subject sender received allEmails data
      loader hasDetector) (str "Status") = some s ∧ s ≠ []) ∧
    ((data (str "Status") = none ∨ data (str "Status") = some []) →
      (∀ L, loader = some L →
        (ValidationData.validate_lead L ((data (str "Company")).getD [])
          ((data (str "Country")).getD []) ((data (str "Email Address")).getD [])).is_valid =
          true) →
      (hasDetector = true →
        (UniversityDetector.is_university ((data (str "Company")).getD [])
          ((data (str "Country")).getD []) ((data (str "Email Address")).getD [])).is_univ =
          false) →
      EmailParser.rget (EmailParser.parse_email subject sender received allEmails data loader
        hasDetector) (str "Status") = some (str "Not Started")) := by
  refine ⟨?_, ?_, ?_⟩
  · intro f hf
    rw [parse_email_eq]
    apply isSome_default_action
    apply isSome_default_status
    apply isSome_university
    apply isSome_validation
    apply isSome_contact_flag
    exact fill_foldl_isSome data EmailParser.FIELDS _ f hf
  · rw [parse_email_eq]
    exact status_nonempty_final _
  · intro hds hval huni
    rw [parse_email_eq]
    set R2 := EmailParser.with_contact_flag (EmailParser.fill_fields data
      (EmailParser.header_row subject sender received allEmails)) with hR2
    have hfoldl : EmailParser.fill_fields data
        (EmailParser.header_row subject sender received allEmails) =
        EmailParser.FIELDS.foldl (EmailParser.fillStep data)
          (EmailParser.header_row subject sender received allEmails) := rfl
    have hget : ∀ g : List Char, g ∈ EmailParser.FIELDS →
        ¬(str "Subject" = g) → ¬(str "Sender" = g) → ¬(str "ReceivedTime" = g) →
        ¬(str "All Emails Found" = g) → ¬(str "Has Contact Sales Form" = g) →
        EmailParser.rget R2 g = some ((data g).getD []) := by
      intro g hgf n1 n2 n3 n4 n5
      rw [hR2, contact_flag_other _ _ n5, hfoldl]
      exact fill_foldl_new data EmailParser.FIELDS _ g hgf
        (rget_header_other _ _ _ _ _ n1 n2 n3 n4)
    have hstat0 : EmailParser.rget R2 (str "Status") = some [] := by
      rw [hget (str "Status") (by decide) (by decide) (by decide) (by decide) (by decide)
        (by decide)]
      rcases hds with h | h <;> rw [h] <;> rfl
    have hcomp : EmailParser.rget R2 (str "Company") = some ((data (str "Company")).getD []) :=
      hget (str "Company") (by decide) (by decide) (by decide) (by decide) (by decide)
        (by decide)
    have hcou : EmailParser.rget R2 (str "Country") = some ((data (str "Country")).getD []) :=
      hget (str "Country") (by decide) (by decide) (by decide) (by decide) (by decide)
        (by decide)
    have hem : EmailParser.rget R2 (str "Email Address") =
        some ((data (str "Email Address")).getD []) :=
      hget (str "Email Address") (by decide) (by decide) (by decide) (by decide) (by decide)
        (by decide)
    have hval2 : EmailParser.rget (EmailParser.apply_validation loader
        ((EmailParser.rget R2 (str "Company")).getD [])
        ((EmailParser.rget R2 (str "Country")).getD [])
        ((EmailParser.rget R2 (str "Email Address")).getD []) R2) (str "Status") = some [] := by
      cases hl : loader with
      | none => exact hstat0
      | some L =>
        have hv : (ValidationData.validate_lead L
            ((EmailParser.rget R2 (str "Company")).getD [])
            ((EmailParser.rget R2 (str "Country")).getD [])
            ((EmailParser.rget R2 (str "Email Address")).getD [])).is_valid = true := by
          rw [hcomp, hcou, hem]
          simp only [Option.getD_some]
          exact hval L hl
        unfold EmailParser.apply_validation
        simp only [hv, Bool.not_true, Bool.false_eq_true, if_false]
        rw [rget_rset_ne _ _ _ _ (by decide), rget_rset_ne _ _ _ _ (by decide)]
        exact hstat0
    have huni2 : EmailParser.rget (EmailParser.apply_university hasDetector
        ((EmailParser.rget R2 (str "Company")).getD [])
        ((EmailParser.rget R2 (str "Country")).getD [])
        ((EmailParser.rget R2 (str "Email Address")).getD [])
        (EmailParser.apply_validation loader
          ((EmailParser.rget R2 (str "Company")).getD [])
          ((EmailParser.rget R2 (str "Country")).getD [])
          ((EmailParser.rget R2 (str "Email Address")).getD []) R2)) (str "Status") =
        some [] := by
      cases hd : hasDetector with
      | false =>
        simp only [EmailParser.apply_university, Bool.and_false, Bool.false_eq_true, if_false]
        exact hval2
      | true =>
        have hu2 : (UniversityDetector.is_university
            ((EmailParser.rget R2 (str "Company")).getD [])
            ((EmailParser.rget R2 (str "Country")).getD [])
            ((EmailParser.rget R2 (str "Email Address")).getD [])).is_univ = false := by
          rw [hcomp, hcou, hem]
          simp only [Option.getD_some]
          exact huni hd
        simp only [EmailParser.apply_university, hval2, Option.getD_some, List.isEmpty_nil,
          Bool.and_true, Bool.and_self, if_true, hu2, Bool.false_eq_true, if_false]
    have hdef : EmailParser.rget (EmailParser.default_status
        (EmailParser.apply_university hasDetector
          ((EmailParser.rget R2 (str "Company")).getD [])
          ((EmailParser.rget R2 (str "Country")).getD [])
          ((EmailParser.rget R2 (str "Email Address")).getD [])
          (EmailParser.apply_validation loader
            ((EmailParser.rget R2 (str "Company")).getD [])
            ((EmailParser.rget R2 (str "Country")).getD [])
            ((EmailParser.rget R2 (str "Email Address")).getD []) R2)))
        (str "Status") = some (str "Not Started") := by
      unfold EmailParser.default_status
      simp only [huni2, Option.getD_some, List.isEmpty_nil, if_true]
      rw [rget_rset_eq, if_pos rfl]
    unfold EmailParser.default_action
    split
    · rw [rget_rset_ne _ _ _ _ (by decide)]
      exact hdef
    · exact hdef

/-- Witness for C10: with no scraped data, no loader and no detector, the
parsed row binds the Company field and defaults Status to `Not Started`. -/
theorem c10_witness :
    EmailParser.rget (EmailParser.parse_email [] [] [] [] (fun _ => none) none false)
      (str "Status") = some (str "Not Started") ∧
    (EmailParser.rget (EmailParser.parse_email [] [] [] [] (fun _ => none) none false)
      (str "Company")).isSome = true :=
  ⟨(c10_parse_email_fields [] [] [] [] (fun _ => none) none false).2.2
      (Or.inl rfl) (fun L hL => by cases hL) (fun h => by cases h),
   (c10_parse_email_fields [] [] [] [] (fun _ => none) none false).1
      (str "Company") (by decide)⟩

/-- Witness for C8 at concrete (empty) inputs. -/
theorem c8_witness :
    (DomainValidator.validate_domain (fun _ => true) [] []).status ∈
      [str "No Email Domain", str "No Company Name", str "Free Mailer",
       str "Valid Company Domain", str "Matching Domain - Not Accessible",
       str "Possible Domain Match", str "Domain Mismatch"] ∧
    (UniversityDetector.is_university [] [] []).confidence ∈ [str "high", str "medium"] :=
  ⟨(c8_total_classification.1 (fun _ => true) [] []).1,
   (c8_total_classification.2 [] [] []).1⟩

/-- Witness for C9 at a concrete input. -/
theorem c9_witness :
    UniversityDetector.normalize_text (UniversityDetector.normalize_text (str " Ab!c ")) =
      UniversityDetector.normalize_text (str " Ab!c ") ∧
    canonForm (UniversityDetector.normalize_text (str " Ab!c ")) = true :=
  ⟨(c9_normalizer (str " Ab!c ")).1, (c9_normalizer (str " Ab!c ")).2.1⟩
